import Mathlib

/-!
Verification of the Admin Reporting & Export subsystem of the
financelitracy-quiz backend (`backend/src/controllers/adminController.js`).

The controller functions `getDashboardOverview`, `getAllStudents`,
`getStudentDetails`, `getAllGameSessions` and `exportStudentPerformance`
are shallowly embedded below.  MongoDB documents become Lean structures;
Mongo query objects become record filters; aggregation pipelines become
list computations; JavaScript numbers become `Rat` (exact arithmetic in
place of IEEE doubles); JavaScript falsiness of `undefined`/`null`/empty
string is modelled explicitly on `Option String`.
-/

namespace FinQuiz

/-- JavaScript `a || d` for an optional string `a` and a string default `d`:
`undefined`, `null` and the empty string are falsy. -/
def jsOrD (a : Option String) (d : String) : String :=
  match a with
  | none => d
  | some s => if s = "" then d else s

/-- JavaScript `a || b` for two optional strings: the first operand wins
unless it is falsy (`undefined`/`null`/`""`). -/
def jsOr (a b : Option String) : Option String :=
  match a with
  | none => b
  | some s => if s = "" then b else some s

/-- JavaScript `a || d` for an optional number (e.g. `x?.f || 0`):
`undefined` and `0` are falsy. -/
def jsOrQ (a : Option Rat) (d : Rat) : Rat :=
  match a with
  | none => d
  | some x => if x = 0 then d else x

/-- JavaScript truthiness of an optional string. -/
def truthyS (a : Option String) : Bool :=
  match a with
  | none => false
  | some s => s ≠ ""

/-- A `User` document (fields consumed by the admin controller).
Optional string fields may also be present-but-empty, which JavaScript
treats as falsy. `uid` stands for the Mongo `_id`. -/
structure User where
  uid : Nat
  role : String
  isActive : Bool
  studentName : Option String
  studentId : Option String
  mobileNumber : Option String
  azureAdEmail : Option String
  azureAdDisplayName : Option String
  createdAtMs : Int
  lastLoginAtMs : Int
deriving DecidableEq, Repr

/-- The `performance` sub-document of a game session. -/
structure Perf where
  accuracy : Rat
  averageTimePerQuestion : Rat
deriving DecidableEq, Repr

/-- A `GameSession` document (fields consumed by the admin controller).
`studentRef` is the stored `studentId` reference (an ObjectId in Mongo);
the referenced `User` is joined in by `populate`, modelled as a lookup.
`startTime`/`endTime` are modelled as the already locale-rendered strings
`toLocaleString` would produce, since only their rendering is consumed. -/
structure Session where
  studentRef : Nat
  studentIdentifier : String
  status : String
  level : Int
  score : Int
  totalQuestions : Int
  percentage : Rat
  timeTakenSeconds : Int
  performance : Option Perf
  startTime : Option String
  endTime : Option String
  feedbackText : Option String
  createdAtMs : Int
deriving DecidableEq, Repr

/-! ### Sort-field validation (getAllStudents / getAllGameSessions)

`const allowedSortFields = [...]; const sortField =
allowedSortFields.includes(sortBy) ? sortBy : "createdAt";` -/

/-- Allow-list of sortable fields for `getAllStudents`. -/
def allowedStudentSortFields : List String :=
  ["createdAt", "studentName", "studentId", "mobileNumber", "lastLoginAt"]

/-- Allow-list of sortable fields for `getAllGameSessions`. -/
def allowedSessionSortFields : List String :=
  ["createdAt", "score", "percentage", "timeTakenSeconds", "level"]

/-- Effective sort field of `getAllStudents`. -/
def studentSortField (sortBy : String) : String :=
  if sortBy ∈ allowedStudentSortFields then sortBy else "createdAt"

/-- Effective sort field of `getAllGameSessions`. -/
def sessionSortField (sortBy : String) : String :=
  if sortBy ∈ allowedSessionSortFields then sortBy else "createdAt"

/-! ### Score range filter (getAllGameSessions / exportStudentPerformance)

`if (minScore) query.score = \x7b $gte: parseInt(minScore) \x7d;`
`if (maxScore) query.score = \x7b ...query.score, $lte: parseInt(maxScore) \x7d;`
An absent query-string parameter is falsy, hence `Option Int` with `none`
for absent. -/

/-- A Mongo comparison object on the `score` field: optional `$gte` and
`$lte` bounds. -/
structure ScoreCond where
  gte : Option Int
  lte : Option Int
deriving DecidableEq, Repr

/-- Build the `query.score` condition exactly as the controller does:
no condition object at all when both bounds are absent. -/
def buildScoreCond (minScore maxScore : Option Int) : Option ScoreCond :=
  let q0 : Option ScoreCond :=
    match minScore with
    | some mn => some { gte := some mn, lte := none }
    | none => none
  match maxScore with
  | some mx =>
      some { gte := (q0.map ScoreCond.gte).join, lte := some mx }
  | none => q0

/-- Mongo evaluation of an optional `score` condition against a score. -/
def evalScoreCond (c : Option ScoreCond) (score : Int) : Bool :=
  match c with
  | none => true
  | some cond =>
      (match cond.gte with | some mn => decide (mn ≤ score) | none => true) &&
      (match cond.lte with | some mx => decide (score ≤ mx) | none => true)

/-! ### Case-insensitive substring search

`$regex` with the `i` option on a text field performs case-insensitive
substring matching; a regex condition on a missing field matches nothing. -/

/-- Does `needle` occur as a contiguous sublist of `hay`? -/
def hasSubstr (hay needle : List Char) : Bool :=
  match hay with
  | [] => needle.isEmpty
  | _ :: t => needle.isPrefixOf hay || hasSubstr t needle

/-- Case-insensitive substring match of `pat` inside `s` (lower-casing
character-wise, as `String.toLower` does). -/
def containsCI (s pat : String) : Bool :=
  hasSubstr (s.data.map Char.toLower) (pat.data.map Char.toLower)

/-- A `$regex`/`i` condition applied to an optional field: missing fields
never match. -/
def optMatches (f : Option String) (pat : String) : Bool :=
  match f with
  | some s => containsCI s pat
  | none => false

/-! ### getAllStudents query -/

/-- The `getAllStudents` Mongo query:
`\x7b role: \x22student\x22, isActive: true \x7d`, extended with the four-field
`$or` regex block when `search` is truthy (non-empty). -/
def studentQueryMatches (search : String) (u : User) : Bool :=
  u.role == "student" && u.isActive &&
    (if search = "" then true
     else optMatches u.studentName search || optMatches u.studentId search ||
          optMatches u.mobileNumber search || optMatches u.azureAdEmail search)

/-! ### getAllGameSessions query -/

/-- The base `getAllGameSessions`/`exportStudentPerformance` query:
a `status` equal to `completed` plus the optional `level`, `studentId`, score-range
and `createdAt`-range conditions, each added only when the corresponding
query-string parameter is truthy (dates: present). -/
def sessionBaseMatches (level : Option Int) (studentRef : Option Nat)
    (minScore maxScore : Option Int) (startMs endMs : Option Int)
    (s : Session) : Bool :=
  s.status == "completed" &&
    (match level with | some l => s.level == l | none => true) &&
    (match studentRef with | some r => s.studentRef == r | none => true) &&
    evalScoreCond (buildScoreCond minScore maxScore) s.score &&
    (match startMs with | some a => decide (a ≤ s.createdAtMs) | none => true) &&
    (match endMs with | some b => decide (s.createdAtMs ≤ b) | none => true)

/-- The `$or` search block of `getAllGameSessions`.  Of its four branches
only `studentIdentifier` is a field of the raw `GameSession` document; the
other three (`studentId.studentName`, `studentId.studentId`,
`studentId.mobileNumber`) are paths through the `studentId` ObjectId
reference — `populate` runs application-side, so on the stored document
those paths resolve to nothing and the branches match no document. -/
def sessionSearchMatches (search : String) (s : Session) : Bool :=
  containsCI s.studentIdentifier search || false || false || false

/-! ### Sorting -/

/-- Numeric sort key of a session for each allow-listed sort field
(all five are numeric or date-valued). -/
def sessionSortKey (field : String) (s : Session) : Rat :=
  if field = "score" then (s.score : Rat)
  else if field = "percentage" then s.percentage
  else if field = "timeTakenSeconds" then (s.timeTakenSeconds : Rat)
  else if field = "level" then (s.level : Rat)
  else (s.createdAtMs : Rat)

/-- Session comparison in the requested direction:
the direction is 1 when `sortOrder` equals `asc` and -1 otherwise. -/
def sessionLe (field ord : String) (a b : Session) : Bool :=
  if ord = "asc" then decide (sessionSortKey field a ≤ sessionSortKey field b)
  else decide (sessionSortKey field b ≤ sessionSortKey field a)

/-- Lexicographic comparison of two character lists by code point. -/
def strDataLe : List Char → List Char → Bool
  | [], _ => true
  | _ :: _, [] => false
  | a :: as, b :: bs =>
    if a.toNat < b.toNat then true
    else if b.toNat < a.toNat then false
    else strDataLe as bs

/-- Order on optional strings with missing values first, as Mongo sorts
missing fields before present ones ascending. -/
def optStrLe (a b : Option String) : Bool :=
  match a, b with
  | none, _ => true
  | some _, none => false
  | some x, some y => strDataLe x.data y.data

/-- Ascending comparison of two users on one allow-listed student sort
field (string fields via `optStrLe`, date fields via their timestamp). -/
def userFieldLe (field : String) (a b : User) : Bool :=
  if field = "studentName" then optStrLe a.studentName b.studentName
  else if field = "studentId" then optStrLe a.studentId b.studentId
  else if field = "mobileNumber" then optStrLe a.mobileNumber b.mobileNumber
  else if field = "lastLoginAt" then decide (a.lastLoginAtMs ≤ b.lastLoginAtMs)
  else decide (a.createdAtMs ≤ b.createdAtMs)

/-- User comparison in the requested direction. -/
def userLe (field ord : String) (a b : User) : Bool :=
  if ord = "asc" then userFieldLe field a b else userFieldLe field b a

/-! ### Pagination -/

/-- The `pagination` object of the listing responses.
`pages` is `Math.ceil(total / limit)`; the claims only concern `limit ≥ 1`
(`total / 0` is `Infinity` in JavaScript, `0` in `Rat`). -/
structure Pagination where
  page : Nat
  limit : Nat
  total : Nat
  pages : Nat
deriving DecidableEq, Repr

/-- Build the pagination object: `pages = Math.ceil(total / limit)`. -/
def mkPagination (page limit total : Nat) : Pagination :=
  { page := page, limit := limit, total := total,
    pages := (Int.ceil ((total : Rat) / (limit : Rat))).toNat }

/-! ### getAllStudents -/

/-- Response payload of `getAllStudents`. -/
structure StudentsResult where
  students : List User
  pagination : Pagination
deriving Repr

/-- The getAllStudents controller: filter by the student query, sort by the validated
sort field, `skip((page-1)*limit)`, `limit(limit)`, and count the query
for the pagination object. -/
def getAllStudents (users : List User) (page limit : Nat)
    (search sortBy sortOrder : String) : StudentsResult :=
  let skip := (page - 1) * limit
  let matched := users.filter (studentQueryMatches search)
  let sorted :=
    List.insertionSort (fun a b => userLe (studentSortField sortBy) sortOrder a b = true) matched
  let students := (sorted.drop skip).take limit
  let total := (users.filter (studentQueryMatches search)).length
  { students := students, pagination := mkPagination page limit total }

/-! ### getAllGameSessions -/

/-- Response payload of `getAllGameSessions`. -/
structure SessionsResult where
  sessions : List Session
  pagination : Pagination
deriving Repr

/-- The getAllGameSessions controller: build the base query; when `search` is truthy
re-issue the find with the `$or` block added; sort, skip, limit; but
`total = countDocuments(query)` is counted over the base query only,
with no search condition. -/
def getAllGameSessions (db : List Session) (page limit : Nat)
    (level : Option Int) (studentRef : Option Nat)
    (startMs endMs minScore maxScore : Option Int)
    (sortBy sortOrder search : String) : SessionsResult :=
  let skip := (page - 1) * limit
  let base := sessionBaseMatches level studentRef minScore maxScore startMs endMs
  let matched :=
    if search = "" then db.filter base
    else db.filter (fun s => base s && sessionSearchMatches search s)
  let sorted :=
    List.insertionSort (fun a b => sessionLe (sessionSortField sortBy) sortOrder a b = true) matched
  let sessions := (sorted.drop skip).take limit
  let total := (db.filter base).length
  { sessions := sessions, pagination := mkPagination page limit total }

/-! ### Dashboard level statistics (getDashboardOverview) -/

/-- One element of the `levelStats` aggregation output
(`_id` is the level of the group). -/
structure LevelStat where
  level : Int
  totalSessions : Nat
  averageScore : Rat
  averagePercentage : Rat
  totalQuestions : Int
  totalCorrectAnswers : Int
deriving DecidableEq, Repr

/-- Stage `$match` keeping the documents whose status equals `completed`. -/
def completedSessions (db : List Session) : List Session :=
  db.filter (fun s => s.status == "completed")

/-- The distinct group keys produced by the `$group` stage keyed on `level`,
ordered by `$sort: \x7b _id: 1 \x7d`. -/
def sessionLevels (db : List Session) : List Int :=
  List.insertionSort (· ≤ ·) (((completedSessions db).map Session.level).dedup)

/-- The accumulators of one `$group` bucket: `$sum` of 1, `$avg` of score,
`$avg` of percentage, `$sum` of totalQuestions, `$sum` of score. -/
def levelGroup (db : List Session) (l : Int) : LevelStat :=
  let g := (completedSessions db).filter (fun s => s.level == l)
  { level := l
    totalSessions := g.length
    averageScore := (g.map (fun s => (s.score : Rat))).sum / (g.length : Rat)
    averagePercentage := (g.map Session.percentage).sum / (g.length : Rat)
    totalQuestions := (g.map Session.totalQuestions).sum
    totalCorrectAnswers := (g.map Session.score).sum }

/-- The `levelStats` pipeline of `getDashboardOverview`. -/
def levelStats (db : List Session) : List LevelStat :=
  (sessionLevels db).map (levelGroup db)

/-! ### Per-student performance (getStudentDetails) -/

/-- The `$group: \x7b _id: null, ... \x7d` output record of the
`getStudentDetails` performance aggregation. -/
structure StudentPerf where
  totalSessions : Nat
  totalQuestions : Int
  totalCorrectAnswers : Int
  averageScore : Rat
  averagePercentage : Rat
  averageTime : Rat
  bestScore : Int
  bestPercentage : Rat
deriving DecidableEq, Repr

/-- Stage `$match` keeping the completed sessions of one student. -/
def studentCompleted (db : List Session) (sid : Nat) : List Session :=
  db.filter (fun s => s.studentRef == sid && s.status == "completed")

/-- The aggregation result list: `$group` with `_id: null` emits no bucket
at all when no document matches, and exactly one bucket otherwise. -/
def perfGroups (db : List Session) (sid : Nat) : List StudentPerf :=
  match studentCompleted db sid with
  | [] => []
  | s0 :: rest =>
      let g := s0 :: rest
      [{ totalSessions := g.length
         totalQuestions := (g.map Session.totalQuestions).sum
         totalCorrectAnswers := (g.map Session.score).sum
         averageScore := (g.map (fun s => (s.score : Rat))).sum / (g.length : Rat)
         averagePercentage := (g.map Session.percentage).sum / (g.length : Rat)
         averageTime := (g.map (fun s => (s.timeTakenSeconds : Rat))).sum / (g.length : Rat)
         bestScore := (rest.map Session.score).foldl max s0.score
         bestPercentage := (rest.map Session.percentage).foldl max s0.percentage }]

/-- JavaScript `performance[0] || null` in the `getStudentDetails`
response (a result object is always truthy). -/
def studentPerformance (db : List Session) (sid : Nat) : Option StudentPerf :=
  (perfGroups db sid).head?

/-! ### Export rows (exportStudentPerformance) -/

/-- One spreadsheet cell: ExcelJS receives strings and numbers here. -/
inductive Cell where
  | str : String → Cell
  | num : Rat → Cell
deriving DecidableEq, Repr

/-- JavaScript `student?.azureAdDisplayName || student?.studentName || "N/A"`. -/
def resolveStudentName (student : Option User) : String :=
  jsOrD (jsOr (student.bind User.azureAdDisplayName) (student.bind User.studentName)) "N/A"

/-- JavaScript `student?.studentId || "N/A"`. -/
def resolveStudentId (student : Option User) : String :=
  jsOrD (student.bind User.studentId) "N/A"

/-- JavaScript `student?.azureAdEmail || student?.mobileNumber || "N/A"`. -/
def resolveContact (student : Option User) : String :=
  jsOrD (jsOr (student.bind User.azureAdEmail) (student.bind User.mobileNumber)) "N/A"

/-- The header row defined by `worksheet.columns`. -/
def exportHeaderRow : List Cell :=
  [Cell.str "Student Name", Cell.str "Student ID", Cell.str "Mobile/Email",
   Cell.str "Level", Cell.str "Score", Cell.str "Total Questions",
   Cell.str "Percentage", Cell.str "Time Taken (seconds)", Cell.str "Accuracy (%)",
   Cell.str "Avg Time per Question (s)", Cell.str "Start Time", Cell.str "End Time",
   Cell.str "Feedback Provided"]

/-- One data row of the export, in worksheet column order.
the `populate` call on `studentId` is the lookup of the referenced user. -/
def exportDataRow (users : List User) (s : Session) : List Cell :=
  let student := users.find? (fun u => u.uid == s.studentRef)
  [Cell.str (resolveStudentName student),
   Cell.str (resolveStudentId student),
   Cell.str (resolveContact student),
   Cell.num (s.level : Rat),
   Cell.num (s.score : Rat),
   Cell.num (s.totalQuestions : Rat),
   Cell.num s.percentage,
   Cell.num (s.timeTakenSeconds : Rat),
   Cell.num (jsOrQ (s.performance.map Perf.accuracy) 0),
   Cell.num (jsOrQ (s.performance.map Perf.averageTimePerQuestion) 0),
   Cell.str (match s.startTime with | some t => t | none => "N/A"),
   Cell.str (match s.endTime with | some t => t | none => "N/A"),
   Cell.str (if truthyS s.feedbackText then "Yes" else "No")]

/-- JavaScript toFixed with two digits on an exact rational: round to the
nearest hundredth (ties up, as for the nonnegative values occurring here)
and print with exactly two digits after the point. -/
def toFixed2 (q : Rat) : String :=
  let n : Int := round (q * 100)
  let frac := (n % 100).toNat
  toString (n / 100) ++ "." ++ (if frac < 10 then "0" ++ toString frac else toString frac)

/-- Append one row, as `worksheet.addRow` does. -/
def addRow (rows : List (List Cell)) (r : List Cell) : List (List Cell) :=
  rows ++ [r]

/-- The worksheet row sequence built by `exportStudentPerformance` from
the already-rendered data rows: header first, then one `addRow` per data
row, then — only when the session list is non-empty — the empty spacer
row and the five summary rows, whose averages divide the `reduce` sums by
`sessions.length`.  (Header/summary font and fill styling is
presentational and not modelled.) -/
def worksheetOfRows (sessions : List Session) (dataRows : List (List Cell)) :
    List (List Cell) :=
  let rows := [exportHeaderRow]
  let rows := dataRows.foldl addRow rows
  if sessions.length > 0 then
    let totalSessions := sessions.length
    let avgScore := (sessions.foldl (fun a s => a + (s.score : Rat)) 0) / (totalSessions : Rat)
    let avgPercentage := (sessions.foldl (fun a s => a + s.percentage) 0) / (totalSessions : Rat)
    let avgTime := (sessions.foldl (fun a s => a + (s.timeTakenSeconds : Rat)) 0) / (totalSessions : Rat)
    let rows := addRow rows []
    let rows := addRow rows (Cell.str "SUMMARY STATISTICS" :: List.replicate 11 (Cell.str ""))
    let rows := addRow rows (Cell.str "Total Sessions" :: Cell.num (totalSessions : Rat) :: List.replicate 10 (Cell.str ""))
    let rows := addRow rows (Cell.str "Average Score" :: Cell.str (toFixed2 avgScore) :: List.replicate 10 (Cell.str ""))
    let rows := addRow rows (Cell.str "Average Percentage" :: Cell.str (toFixed2 avgPercentage ++ "%") :: List.replicate 10 (Cell.str ""))
    let rows := addRow rows (Cell.str "Average Time (seconds)" :: Cell.str (toFixed2 avgTime) :: List.replicate 10 (Cell.str ""))
    rows
  else rows

/-- The complete worksheet produced for a filtered session list. -/
def exportWorksheet (users : List User) (sessions : List Session) :
    List (List Cell) :=
  worksheetOfRows sessions (sessions.map (exportDataRow users))

/-! ### Export failure handling (exportStudentPerformance try/catch) -/

/-- Render the data rows one by one, aborting at the first construction
failure (each ExcelJS call inside the `try` block may throw). -/
def renderRowsE (render : Session → Except String (List Cell)) :
    List Session → Except String (List (List Cell))
  | [] => Except.ok []
  | s :: rest =>
      match render s with
      | Except.error e => Except.error e
      | Except.ok r =>
          match renderRowsE render rest with
          | Except.error e => Except.error e
          | Except.ok rs => Except.ok (r :: rs)

/-- What the caller of the export endpoint receives: either the fully
serialized document, or the catch-block JSON
`\x7b success: false, message: ... \x7d`. -/
inductive ExportOutcome where
  | document : List (List Cell) → ExportOutcome
  | errorJson : Bool → String → ExportOutcome
deriving DecidableEq, Repr

/-- The `try`/`catch` of `exportStudentPerformance` around document
construction: any failure while building falls to the catch block, which
answers the structured error; only a fully built workbook is serialized
and returned. -/
def exportHandler (render : Session → Except String (List Cell))
    (sessions : List Session) : ExportOutcome :=
  match renderRowsE render sessions with
  | Except.error _ =>
      ExportOutcome.errorJson false "Failed to export student performance data"
  | Except.ok dataRows => ExportOutcome.document (worksheetOfRows sessions dataRows)

/-! ### Pagination validation (route layer) -/

/-- Value of a decimal digit character, if it is one. -/
def decDigit? (c : Char) : Option Nat :=
  if 48 ≤ c.toNat ∧ c.toNat ≤ 57 then some (c.toNat - 48) else none

/-- Read a character list as a decimal numeral, left to right. -/
def parseDigitsAux : List Char → Nat → Option Nat
  | [], acc => some acc
  | c :: cs, acc =>
    match decDigit? c with
    | some d => parseDigitsAux cs (acc * 10 + d)
    | none => none

/-- Modelled from the spec: the route-level pagination validator for the
admin listing endpoints is not among the sources available here (only the
controller is).  Per the spec the listing operations "fail with
ValidationError only if page/limit are not parseable as positive
integers": a query-string value parses as a positive integer iff it is a
non-empty decimal numeral denoting some n with 1 ≤ n. -/
def parsePositiveInt (s : String) : Option Nat :=
  match s.data with
  | [] => none
  | c :: cs =>
    match parseDigitsAux (c :: cs) 0 with
    | some n => if 1 ≤ n then some n else none
    | none => none

/-- Outcome of a validated listing request. -/
inductive ListingOutcome (α : Type) where
  | validationError : ListingOutcome α
  | ok : α → ListingOutcome α
deriving DecidableEq, Repr

/-- Modelled from the spec: `getAllStudents` behind the pagination
validator — reject with `ValidationError` exactly when `page` or `limit`
does not parse as a positive integer, and otherwise run the controller
unchanged (all other malformed inputs degrade inside the controller). -/
def getAllStudentsChecked (users : List User)
    (page limit search sortBy sortOrder : String) :
    ListingOutcome StudentsResult :=
  match parsePositiveInt page, parsePositiveInt limit with
  | some p, some l => ListingOutcome.ok (getAllStudents users p l search sortBy sortOrder)
  | _, _ => ListingOutcome.validationError

/-- Modelled from the spec: `getAllGameSessions` behind the pagination
validator, as for `getAllStudentsChecked`. -/
def getAllGameSessionsChecked (db : List Session)
    (page limit : String) (level : Option Int) (studentRef : Option Nat)
    (startMs endMs minScore maxScore : Option Int)
    (sortBy sortOrder search : String) : ListingOutcome SessionsResult :=
  match parsePositiveInt page, parsePositiveInt limit with
  | some p, some l =>
      ListingOutcome.ok
        (getAllGameSessions db p l level studentRef startMs endMs minScore maxScore
          sortBy sortOrder search)
  | _, _ => ListingOutcome.validationError

/-! ### Concrete fixtures used in scenario claims and witnesses -/

/-- Base completed-session fixture shared by the scenario claims. -/
def c7base : Session :=
  { studentRef := 1, studentIdentifier := "s1", status := "completed", level := 1,
    score := 5, totalQuestions := 10, percentage := 50, timeTakenSeconds := 60,
    performance := none, startTime := none, endTime := none, feedbackText := none,
    createdAtMs := 0 }

/-- First score-5 session of the score-range scenario. -/
def c7s1 : Session := c7base
/-- Second score-5 session of the score-range scenario. -/
def c7s2 : Session := { c7base with studentIdentifier := "s2", createdAtMs := 1 }
/-- Score-6 session of the score-range scenario. -/
def c7s3 : Session :=
  { c7base with studentIdentifier := "s3", score := 6, percentage := 60, createdAtMs := 2 }

/-- Session whose identifier matches the search term alpha. -/
def c10s1 : Session := { c7base with studentIdentifier := "alpha-1" }
/-- Session whose identifier does not match the search term alpha. -/
def c10s2 : Session := { c7base with studentIdentifier := "beta-2", createdAtMs := 5 }

/-- Level-1 session with score 8 of the level-statistics scenario. -/
def c1s1 : Session :=
  { c7base with studentIdentifier := "c1a", score := 8, percentage := 80 }
/-- Level-1 session with score 6 of the level-statistics scenario. -/
def c1s2 : Session :=
  { c7base with studentIdentifier := "c1b", score := 6, percentage := 60, createdAtMs := 1 }

/-- User fixture with both external-auth and legacy identity fields. -/
def c5user : User :=
  { uid := 1, role := "student", isActive := true,
    studentName := some "Legacy Name", studentId := some "MICA123",
    mobileNumber := some "9999999999", azureAdEmail := none,
    azureAdDisplayName := some "AD Display", createdAtMs := 0, lastLoginAtMs := 0 }

/-- Ceiling of a natural division, expressed with natural arithmetic. -/
theorem toNat_ceil_div_eq (t l : Nat) (hl : 1 ≤ l) :
    (Int.ceil ((t : Rat) / (l : Rat))).toNat = (t + l - 1) / l := by
  have hl0 : (0 : Rat) < (l : Rat) := by exact_mod_cast hl
  have hdmN : (t + l - 1) / l * l + (t + l - 1) % l = t + l - 1 := by
    have h := Nat.div_add_mod (t + l - 1) l
    rw [Nat.mul_comm] at h
    exact h
  have hmodN : (t + l - 1) % l ≤ l - 1 := by
    have := Nat.mod_lt (t + l - 1) (show 0 < l by omega)
    omega
  set q := (t + l - 1) / l with hq
  set m := (t + l - 1) % l with hm
  have hcast : ((t + l - 1 : Nat) : Rat) = (t : Rat) + l - 1 := by
    push_cast [Nat.cast_sub (show 1 ≤ t + l by omega)]
    ring
  have hdm : (q : Rat) * (l : Rat) + (m : Rat) = (t : Rat) + l - 1 := by
    rw [← hcast]
    exact_mod_cast hdmN
  have hmod : (m : Rat) ≤ (l : Rat) - 1 := by
    have h := (Nat.cast_le (α := Rat)).mpr hmodN
    calc (m : Rat) ≤ ((l - 1 : Nat) : Rat) := h
      _ = (l : Rat) - 1 := by push_cast [Nat.cast_sub hl]; ring
  have hmod0 : (0 : Rat) ≤ (m : Rat) := by positivity
  have hceil : Int.ceil ((t : Rat) / (l : Rat)) = (q : Int) := by
    rw [Int.ceil_eq_iff]
    refine ⟨?_, ?_⟩
    · rw [Int.cast_natCast, lt_div_iff₀ hl0]
      linarith [hdm, hmod0]
    · rw [Int.cast_natCast, div_le_iff₀ hl0]
      linarith [hdm, hmod]
  rw [hceil, Int.toNat_natCast]

/-- Claim C4: for every sortBy value, the effective sort key of
getAllStudents is sortBy when it belongs to the student allow-list and
createdAt otherwise, and the effective sort key of getAllGameSessions is
sortBy when it belongs to the session allow-list and createdAt otherwise;
a value outside the allow-list is never used as a sort key (the effective
key always belongs to the allow-list). -/
theorem claim_C4 (sortBy : String) :
    (sortBy ∈ allowedStudentSortFields → studentSortField sortBy = sortBy) ∧
    (sortBy ∉ allowedStudentSortFields → studentSortField sortBy = "createdAt") ∧
    studentSortField sortBy ∈ allowedStudentSortFields ∧
    (sortBy ∈ allowedSessionSortFields → sessionSortField sortBy = sortBy) ∧
    (sortBy ∉ allowedSessionSortFields → sessionSortField sortBy = "createdAt") ∧
    sessionSortField sortBy ∈ allowedSessionSortFields := by
  refine ⟨?_, ?_, ?_, ?_, ?_, ?_⟩
  · intro h; simp [studentSortField, h]
  · intro h; simp [studentSortField, h]
  · by_cases h : sortBy ∈ allowedStudentSortFields
    · simp [studentSortField, h]
    · simp only [studentSortField, h, if_false]
      decide
  · intro h; simp [sessionSortField, h]
  · intro h; simp [sessionSortField, h]
  · by_cases h : sortBy ∈ allowedSessionSortFields
    · simp [sessionSortField, h]
    · simp only [sessionSortField, h, if_false]
      decide

/-- Witness for claim C4 at concrete sort keys. -/
theorem claim_C4_witness :
    studentSortField "bogus; drop table" = "createdAt" ∧
    sessionSortField "score" = "score" ∧
    studentSortField "lastLoginAt" = "lastLoginAt" ∧
    sessionSortField "bogus; drop table" = "createdAt" :=
  ⟨(claim_C4 "bogus; drop table").2.1 (by decide),
   (claim_C4 "score").2.2.2.1 (by decide),
   (claim_C4 "lastLoginAt").1 (by decide),
   (claim_C4 "bogus; drop table").2.2.2.2.1 (by decide)⟩

/-- Claim C7: supplying minScore and/or maxScore yields inclusive lower
and upper bounds composed on the same score field, an absent bound is
omitted rather than defaulted to an extreme (both bounds absent match
every score), and filtering sessions with scores 5, 5, 6 by minScore 5
and maxScore 5 matches exactly the two score-5 sessions. -/
theorem claim_C7 :
    (∀ mn mx s : Int,
      evalScoreCond (buildScoreCond (some mn) (some mx)) s = true ↔ mn ≤ s ∧ s ≤ mx) ∧
    (∀ mn s : Int, evalScoreCond (buildScoreCond (some mn) none) s = true ↔ mn ≤ s) ∧
    (∀ mx s : Int, evalScoreCond (buildScoreCond none (some mx)) s = true ↔ s ≤ mx) ∧
    (∀ s : Int, evalScoreCond (buildScoreCond none none) s = true) ∧
    [c7s1, c7s2, c7s3].filter
        (sessionBaseMatches none none (some 5) (some 5) none none) = [c7s1, c7s2] ∧
    c7s1.score = 5 ∧ c7s2.score = 5 ∧ c7s3.score = 6 := by
  refine ⟨?_, ?_, ?_, ?_, by decide, by decide, by decide, by decide⟩ <;>
    intros <;> simp [buildScoreCond, evalScoreCond, Option.map, Option.join]

/-- Witness for claim C7 at score 5 with both bounds 5. -/
theorem claim_C7_witness :
    evalScoreCond (buildScoreCond (some 5) (some 5)) 5 = true :=
  (claim_C7.1 5 5 5).mpr (by decide)

/-- Claim C8: the listing operations fail with a ValidationError exactly
when page or limit is not parseable as a positive integer; whenever both
parse, the operations succeed for every other input (invalid sort keys or
filter values degrade to defaults inside the controller, proved in claim
C4) and return the controller result unchanged. -/
theorem claim_C8 (users : List User) (db : List Session)
    (page limit search sortBy sortOrder : String)
    (level : Option Int) (studentRef : Option Nat)
    (startMs endMs minScore maxScore : Option Int) :
    (getAllStudentsChecked users page limit search sortBy sortOrder =
        ListingOutcome.validationError ↔
      parsePositiveInt page = none ∨ parsePositiveInt limit = none) ∧
    (getAllGameSessionsChecked db page limit level studentRef startMs endMs minScore
        maxScore sortBy sortOrder search = ListingOutcome.validationError ↔
      parsePositiveInt page = none ∨ parsePositiveInt limit = none) ∧
    (∀ p l, parsePositiveInt page = some p → parsePositiveInt limit = some l →
      getAllStudentsChecked users page limit search sortBy sortOrder =
        ListingOutcome.ok (getAllStudents users p l search sortBy sortOrder)) ∧
    (∀ p l, parsePositiveInt page = some p → parsePositiveInt limit = some l →
      getAllGameSessionsChecked db page limit level studentRef startMs endMs minScore
          maxScore sortBy sortOrder search =
        ListingOutcome.ok (getAllGameSessions db p l level studentRef startMs endMs
          minScore maxScore sortBy sortOrder search)) := by
  unfold getAllStudentsChecked getAllGameSessionsChecked
  rcases hp : parsePositiveInt page with _ | p <;>
    rcases hl : parsePositiveInt limit with _ | l <;> simp

/-- Witness for claim C8: a malformed page is rejected, a valid one is not. -/
theorem claim_C8_witness :
    getAllStudentsChecked [] "abc" "20" "" "createdAt" "desc" =
      ListingOutcome.validationError ∧
    getAllStudentsChecked [] "1" "20" "" "createdAt" "desc" =
      ListingOutcome.ok (getAllStudents [] 1 20 "" "createdAt" "desc") :=
  ⟨((claim_C8 [] [] "abc" "20" "" "createdAt" "desc" none none none none none
      none).1).mpr (Or.inl (by decide)),
   ((claim_C8 [] [] "1" "20" "" "createdAt" "desc" none none none none none
      none).2.2.1) 1 20 (by decide) (by decide)⟩

/-- Claim C3: for every student or session listing request with page and
limit at least 1, the item list is a take of limit elements after dropping
(page-1)*limit records of a permutation (the sort) of the filtered
records, hence has at most limit elements, and the pagination object
reports total as the count of matching records and pages as the ceiling
of total divided by limit. -/
theorem claim_C3 (users : List User) (db : List Session) (page limit : Nat)
    (search sortBy sortOrder : String) (level : Option Int) (studentRef : Option Nat)
    (startMs endMs minScore maxScore : Option Int)
    (hp : 1 ≤ page) (hl : 1 ≤ limit) :
    ((getAllStudents users page limit search sortBy sortOrder).students.length ≤ limit) ∧
    ((getAllStudents users page limit search sortBy sortOrder).pagination.total =
      (users.filter (studentQueryMatches search)).length) ∧
    ((getAllStudents users page limit search sortBy sortOrder).pagination.pages =
      ((users.filter (studentQueryMatches search)).length + limit - 1) / limit) ∧
    (∃ sorted : List User, List.Perm sorted (users.filter (studentQueryMatches search)) ∧
      (getAllStudents users page limit search sortBy sortOrder).students =
        (sorted.drop ((page - 1) * limit)).take limit) ∧
    ((getAllGameSessions db page limit level studentRef startMs endMs minScore maxScore
        sortBy sortOrder search).sessions.length ≤ limit) ∧
    ((getAllGameSessions db page limit level studentRef startMs endMs minScore maxScore
        sortBy sortOrder search).pagination.total =
      (db.filter (sessionBaseMatches level studentRef minScore maxScore startMs endMs)).length) ∧
    ((getAllGameSessions db page limit level studentRef startMs endMs minScore maxScore
        sortBy sortOrder search).pagination.pages =
      ((db.filter (sessionBaseMatches level studentRef minScore maxScore startMs
        endMs)).length + limit - 1) / limit) ∧
    (∃ sorted : List Session,
      List.Perm sorted (if search = ""
        then db.filter (sessionBaseMatches level studentRef minScore maxScore startMs endMs)
        else db.filter (fun s =>
          sessionBaseMatches level studentRef minScore maxScore startMs endMs s &&
            sessionSearchMatches search s)) ∧
      (getAllGameSessions db page limit level studentRef startMs endMs minScore maxScore
          sortBy sortOrder search).sessions =
        (sorted.drop ((page - 1) * limit)).take limit) := by
  refine ⟨?_, rfl, ?_, ?_, ?_, rfl, ?_, ?_⟩
  · simp [getAllStudents, List.length_take]
  · simp only [getAllStudents, mkPagination]
    exact toNat_ceil_div_eq _ _ hl
  · exact ⟨_, List.perm_insertionSort _ _, rfl⟩
  · simp [getAllGameSessions, List.length_take]
  · simp only [getAllGameSessions, mkPagination]
    exact toNat_ceil_div_eq _ _ hl
  · exact ⟨_, List.perm_insertionSort _ _, rfl⟩

/-- Witness for claim C3 at page 2, limit 3 over an empty store. -/
theorem claim_C3_witness :
    (getAllStudents [] 2 3 "" "createdAt" "desc").students.length ≤ 3 ∧
    (getAllStudents [] 2 3 "" "createdAt" "desc").pagination.pages =
      ((([] : List User).filter (studentQueryMatches "")).length + 3 - 1) / 3 := by
  have h := claim_C3 [] [] 2 3 "" "createdAt" "desc" none none none none none none
    (by decide) (by decide)
  exact ⟨h.1, h.2.2.1⟩

/-- Claim C10: in getAllGameSessions the reported pagination.total is
always computed from the base filter alone, ignoring the search
condition, and on a concrete store of two sessions with a search term
matching only one of them the reported total (2) strictly exceeds the
number of sessions matching the effective query used to fetch items (1). -/
theorem claim_C10 :
    (∀ (db : List Session) (page limit : Nat) (level : Option Int)
        (studentRef : Option Nat) (startMs endMs minScore maxScore : Option Int)
        (sortBy sortOrder search : String),
      (getAllGameSessions db page limit level studentRef startMs endMs minScore maxScore
          sortBy sortOrder search).pagination.total =
        (db.filter (sessionBaseMatches level studentRef minScore maxScore startMs
          endMs)).length) ∧
    ((getAllGameSessions [c10s1, c10s2] 1 20 none none none none none none
        "createdAt" "desc" "alpha").pagination.total = 2) ∧
    (([c10s1, c10s2].filter (fun s =>
        sessionBaseMatches none none none none none none s &&
          sessionSearchMatches "alpha" s)).length = 1) ∧
    ((getAllGameSessions [c10s1, c10s2] 1 20 none none none none none none
        "createdAt" "desc" "alpha").pagination.total >
      ([c10s1, c10s2].filter (fun s =>
        sessionBaseMatches none none none none none none s &&
          sessionSearchMatches "alpha" s)).length) :=
  ⟨fun db page limit level studentRef startMs endMs minScore maxScore sortBy
      sortOrder search => rfl,
   by decide, by decide, by decide⟩

/-- A fold of max over a list yields one of its elements. -/
theorem foldl_max_mem {A : Type} [LinearOrder A] (l : List A) (a : A) :
    l.foldl max a ∈ a :: l := by
  induction l generalizing a with
  | nil => simp
  | cons b t ih =>
    have h := ih (max a b)
    rcases max_choice a b with hm | hm <;> rw [hm] at h <;>
      simp only [List.foldl_cons] <;> rcases List.mem_cons.mp h with h1 | h1 <;>
        simp [hm, h1]

/-- A fold of max over a list bounds every element. -/
theorem le_foldl_max {A : Type} [LinearOrder A] (l : List A) :
    ∀ a x : A, x ∈ a :: l → x ≤ l.foldl max a := by
  induction l with
  | nil =>
    intro a x hx
    simp only [List.mem_singleton] at hx
    simp [hx]
  | cons b t ih =>
    intro a x hx
    simp only [List.foldl_cons]
    rcases List.mem_cons.mp hx with h1 | h1
    · subst h1
      exact le_trans (le_max_left x b) (ih (max x b) (max x b) (List.mem_cons_self _ _))
    · rcases List.mem_cons.mp h1 with h2 | h2
      · subst h2
        exact le_trans (le_max_right a x) (ih (max a x) (max a x) (List.mem_cons_self _ _))
      · exact ih (max a b) x (List.mem_cons_of_mem _ h2)

/-- Claim C1: the level statistics of getDashboardOverview group exactly
the completed sessions by level (each emitted group key is the level of a
completed session and every completed session has its group), each group
reports totalSessions as the group count, averageScore and
averagePercentage as arithmetic means, totalQuestions and
totalCorrectAnswers as sums with totalCorrectAnswers summing score,
groups are emitted in strictly ascending level order (hence no
duplicates), and the two-session scenario yields the stated level-1
group. -/
theorem claim_C1 (db : List Session) :
    ((levelStats db).Pairwise (fun a b => a.level < b.level)) ∧
    (∀ g ∈ levelStats db, ∃ s ∈ db, s.status = "completed" ∧ s.level = g.level) ∧
    (∀ s ∈ db, s.status = "completed" → ∃ g ∈ levelStats db, g.level = s.level) ∧
    (∀ g ∈ levelStats db,
      g.totalSessions = ((completedSessions db).filter (fun s => s.level == g.level)).length ∧
      g.averageScore = (((completedSessions db).filter (fun s => s.level == g.level)).map
          (fun s => (s.score : Rat))).sum / (g.totalSessions : Rat) ∧
      g.averagePercentage = (((completedSessions db).filter (fun s => s.level == g.level)).map
          Session.percentage).sum / (g.totalSessions : Rat) ∧
      g.totalQuestions = (((completedSessions db).filter (fun s => s.level == g.level)).map
          Session.totalQuestions).sum ∧
      g.totalCorrectAnswers = (((completedSessions db).filter (fun s => s.level == g.level)).map
          Session.score).sum) ∧
    (levelStats [c1s1, c1s2] =
      [{ level := 1, totalSessions := 2, averageScore := 7, averagePercentage := 70,
         totalQuestions := 20, totalCorrectAnswers := 14 }]) := by
  refine ⟨?_, ?_, ?_, ?_, ?_⟩
  · have hsorted : (sessionLevels db).Sorted (· ≤ ·) :=
      List.sorted_insertionSort _ _
    have hnodup : (sessionLevels db).Nodup :=
      (List.perm_insertionSort _ _).nodup_iff.mpr (List.nodup_dedup _)
    have hlt := hsorted.lt_of_le hnodup
    exact hlt.map _ (fun a b h => h)
  · intro g hg
    rcases List.mem_map.mp hg with ⟨l, hl, rfl⟩
    rw [sessionLevels, List.mem_insertionSort, List.mem_dedup, List.mem_map] at hl
    rcases hl with ⟨s, hs, hsl⟩
    rcases List.mem_filter.mp hs with ⟨hsdb, hstat⟩
    exact ⟨s, hsdb, by simpa using hstat, by simpa [levelGroup] using hsl⟩
  · intro s hs hstat
    refine ⟨levelGroup db s.level, List.mem_map_of_mem _ ?_, rfl⟩
    rw [sessionLevels, List.mem_insertionSort, List.mem_dedup, List.mem_map]
    exact ⟨s, List.mem_filter.mpr ⟨hs, by simpa using hstat⟩, rfl⟩
  · intro g hg
    rcases List.mem_map.mp hg with ⟨l, hl, rfl⟩
    exact ⟨rfl, rfl, rfl, rfl, rfl⟩
  · norm_num [levelStats, sessionLevels, completedSessions, levelGroup,
      c1s1, c1s2, c7base, List.insertionSort, List.orderedInsert, List.dedup,
      List.filter, LevelStat.mk.injEq]

/-- Witness for claim C1: the singleton store has a group for its level. -/
theorem claim_C1_witness :
    ∃ g ∈ levelStats [c1s1], g.level = c1s1.level :=
  (claim_C1 [c1s1]).2.2.1 c1s1 (List.mem_singleton.mpr rfl) rfl

/-- Claim C6: getStudentDetails returns performance none (not a
zero-filled record) exactly when the student has zero completed sessions;
otherwise the performance record carries counts and sums over the
completed sessions of that student, arithmetic means, and maxima for
bestScore and bestPercentage. -/
theorem claim_C6 (db : List Session) (sid : Nat) :
    (studentPerformance db sid = none ↔
      ∀ s ∈ db, ¬(s.studentRef = sid ∧ s.status = "completed")) ∧
    (∀ p, studentPerformance db sid = some p →
      p.totalSessions = (studentCompleted db sid).length ∧
      p.totalQuestions = ((studentCompleted db sid).map Session.totalQuestions).sum ∧
      p.totalCorrectAnswers = ((studentCompleted db sid).map Session.score).sum ∧
      p.averageScore = ((studentCompleted db sid).map (fun s => (s.score : Rat))).sum /
        ((studentCompleted db sid).length : Rat) ∧
      p.averagePercentage = ((studentCompleted db sid).map Session.percentage).sum /
        ((studentCompleted db sid).length : Rat) ∧
      p.averageTime = ((studentCompleted db sid).map
          (fun s => (s.timeTakenSeconds : Rat))).sum /
        ((studentCompleted db sid).length : Rat) ∧
      p.bestScore ∈ (studentCompleted db sid).map Session.score ∧
      (∀ s ∈ studentCompleted db sid, s.score ≤ p.bestScore) ∧
      p.bestPercentage ∈ (studentCompleted db sid).map Session.percentage ∧
    (∀ s ∈ studentCompleted db sid, s.percentage ≤ p.bestPercentage)) := by
  have hchar : studentCompleted db sid = [] ↔
      ∀ s ∈ db, ¬(s.studentRef = sid ∧ s.status = "completed") := by
    rw [studentCompleted, List.filter_eq_nil_iff]
    constructor
    · intro h s hs hcontra
      exact h s hs (by simp [hcontra.1, hcontra.2])
    · intro h s hs hb
      simp only [Bool.and_eq_true, beq_iff_eq] at hb
      exact h s hs ⟨hb.1, hb.2⟩
  constructor
  · rw [studentPerformance, perfGroups]
    rcases hsc : studentCompleted db sid with _ | ⟨s0, rest⟩
    · simpa using hchar.mp hsc
    · simp only [List.head?]
      constructor
      · intro h; exact absurd h (by simp)
      · intro h
        exfalso
        have : s0 ∈ studentCompleted db sid := by rw [hsc]; exact List.mem_cons_self _ _
        rcases List.mem_filter.mp this with ⟨hsdb, hb⟩
        simp only [Bool.and_eq_true, beq_iff_eq] at hb
        exact h s0 hsdb ⟨hb.1, hb.2⟩
  · intro p hp
    rw [studentPerformance, perfGroups] at hp
    rcases hsc : studentCompleted db sid with _ | ⟨s0, rest⟩
    · rw [hsc] at hp; simp at hp
    · rw [hsc] at hp
      simp only [List.head?, Option.some.injEq] at hp
      subst hp
      refine ⟨rfl, rfl, rfl, rfl, rfl, rfl, ?_, ?_, ?_, ?_⟩
      · have := foldl_max_mem (rest.map Session.score) s0.score
        simpa using this
      · intro s hs
        have : s.score ∈ s0.score :: rest.map Session.score := by
          rcases List.mem_cons.mp hs with h1 | h1
          · simp [h1]
          · exact List.mem_cons_of_mem _ (List.mem_map_of_mem _ h1)
        exact le_foldl_max _ _ _ this
      · have := foldl_max_mem (rest.map Session.percentage) s0.percentage
        simpa using this
      · intro s hs
        have : s.percentage ∈ s0.percentage :: rest.map Session.percentage := by
          rcases List.mem_cons.mp hs with h1 | h1
          · simp [h1]
          · exact List.mem_cons_of_mem _ (List.mem_map_of_mem _ h1)
        exact le_foldl_max _ _ _ this

/-- Witness for claim C6: an empty store yields none, a singleton store
yields a record with the stated count and best score. -/
theorem claim_C6_witness :
    studentPerformance [] 1 = none ∧
    ∃ p, studentPerformance [c7s1] 1 = some p ∧
      p.totalSessions = (studentCompleted [c7s1] 1).length ∧
      p.bestScore ∈ (studentCompleted [c7s1] 1).map Session.score := by
  refine ⟨(claim_C6 [] 1).1.mpr (by simp), ?_⟩
  rcases hsp : studentPerformance [c7s1] 1 with _ | p
  · exfalso
    rw [(claim_C6 [c7s1] 1).1] at hsp
    exact hsp c7s1 (List.mem_singleton.mpr rfl) ⟨rfl, rfl⟩
  · have h2 := (claim_C6 [c7s1] 1).2 p hsp
    exact ⟨p, rfl, h2.1, h2.2.2.2.2.2.2.1⟩

/-- Folding addRow appends the rows in order. -/
theorem foldl_addRow_eq (l rows : List (List Cell)) :
    l.foldl addRow rows = rows ++ l := by
  induction l generalizing rows with
  | nil => simp
  | cons r t ih => simp [addRow, ih]

/-- The reduce-style accumulation equals the sum of the mapped list. -/
theorem foldl_add_eq_sum (f : Session → Rat) (l : List Session) (a : Rat) :
    l.foldl (fun acc s => acc + f s) a = a + (l.map f).sum := by
  induction l generalizing a with
  | nil => simp
  | cons s t ih => simp [ih, add_assoc]

/-- Closed form of the worksheet row sequence: header, data rows, and the
summary block exactly when the session list is non-empty. -/
theorem worksheetOfRows_eq (sessions : List Session) (dataRows : List (List Cell)) :
    worksheetOfRows sessions dataRows =
      exportHeaderRow :: dataRows ++
        (if sessions = [] then ([] : List (List Cell)) else
          [[],
           Cell.str "SUMMARY STATISTICS" :: List.replicate 11 (Cell.str ""),
           Cell.str "Total Sessions" :: Cell.num (sessions.length : Rat) ::
             List.replicate 10 (Cell.str ""),
           Cell.str "Average Score" :: Cell.str (toFixed2
             ((sessions.map (fun s => (s.score : Rat))).sum / (sessions.length : Rat))) ::
             List.replicate 10 (Cell.str ""),
           Cell.str "Average Percentage" :: Cell.str (toFixed2
             ((sessions.map Session.percentage).sum / (sessions.length : Rat)) ++ "%") ::
             List.replicate 10 (Cell.str ""),
           Cell.str "Average Time (seconds)" :: Cell.str (toFixed2
             ((sessions.map (fun s => (s.timeTakenSeconds : Rat))).sum /
               (sessions.length : Rat))) :: List.replicate 10 (Cell.str "")]) := by
  rcases sessions with _ | ⟨s0, rest⟩
  · simp [worksheetOfRows, foldl_addRow_eq]
  · simp [worksheetOfRows, addRow, foldl_addRow_eq, foldl_add_eq_sum]

/-- Claim C2: the export worksheet contains a header row followed by
exactly N data rows in input order; when N is positive these are followed
by one blank row and exactly five summary rows (the SUMMARY STATISTICS
label, Total Sessions equal to N, Average Score, Average Percentage
suffixed with a percent sign, and Average Time, each average the
arithmetic mean of the inputs rendered to two decimal places); when N is
zero the document is exactly the header row with no summary rows. -/
theorem claim_C2 (users : List User) (sessions : List Session) :
    ((exportWorksheet users sessions).length =
        1 + sessions.length + (if sessions = [] then 0 else 6)) ∧
    ((exportWorksheet users sessions).take (1 + sessions.length) =
        exportHeaderRow :: sessions.map (exportDataRow users)) ∧
    (sessions = [] → exportWorksheet users sessions = [exportHeaderRow]) ∧
    (sessions ≠ [] →
      (exportWorksheet users sessions).drop (1 + sessions.length) =
        [[],
         Cell.str "SUMMARY STATISTICS" :: List.replicate 11 (Cell.str ""),
         Cell.str "Total Sessions" :: Cell.num (sessions.length : Rat) ::
           List.replicate 10 (Cell.str ""),
         Cell.str "Average Score" :: Cell.str (toFixed2
           ((sessions.map (fun s => (s.score : Rat))).sum / (sessions.length : Rat))) ::
           List.replicate 10 (Cell.str ""),
         Cell.str "Average Percentage" :: Cell.str (toFixed2
           ((sessions.map Session.percentage).sum / (sessions.length : Rat)) ++ "%") ::
           List.replicate 10 (Cell.str ""),
         Cell.str "Average Time (seconds)" :: Cell.str (toFixed2
           ((sessions.map (fun s => (s.timeTakenSeconds : Rat))).sum /
             (sessions.length : Rat))) :: List.replicate 10 (Cell.str "")]) := by
  have key := worksheetOfRows_eq sessions (sessions.map (exportDataRow users))
  have hlen : (sessions.map (exportDataRow users)).length = sessions.length :=
    List.length_map _ _
  refine ⟨?_, ?_, ?_, ?_⟩
  · rw [exportWorksheet, key]
    rcases sessions with _ | ⟨s0, rest⟩ <;> simp <;> omega
  · rw [exportWorksheet, key]
    have hlen1 : (exportHeaderRow :: sessions.map (exportDataRow users)).length =
        1 + sessions.length := by
      simp [hlen, Nat.add_comm]
    rw [List.take_left' hlen1]
  · intro h
    subst h
    simp [exportWorksheet, worksheetOfRows, foldl_addRow_eq]
  · intro h
    rw [exportWorksheet, key]
    have hlen1 : (exportHeaderRow :: sessions.map (exportDataRow users)).length =
        1 + sessions.length := by
      simp [hlen, Nat.add_comm]
    rw [List.drop_left' hlen1]
    simp [h]

/-- Witness for claim C2 on the empty and a one-session export. -/
theorem claim_C2_witness :
    exportWorksheet [] [] = [exportHeaderRow] ∧
    (exportWorksheet [] [c7s1]).drop 2 =
      [[],
       Cell.str "SUMMARY STATISTICS" :: List.replicate 11 (Cell.str ""),
       Cell.str "Total Sessions" :: Cell.num (([c7s1] : List Session).length : Rat) ::
         List.replicate 10 (Cell.str ""),
       Cell.str "Average Score" :: Cell.str (toFixed2
         ((([c7s1] : List Session).map (fun s => (s.score : Rat))).sum /
           (([c7s1] : List Session).length : Rat))) :: List.replicate 10 (Cell.str ""),
       Cell.str "Average Percentage" :: Cell.str (toFixed2
         ((([c7s1] : List Session).map Session.percentage).sum /
           (([c7s1] : List Session).length : Rat)) ++ "%") ::
         List.replicate 10 (Cell.str ""),
       Cell.str "Average Time (seconds)" :: Cell.str (toFixed2
         ((([c7s1] : List Session).map (fun s => (s.timeTakenSeconds : Rat))).sum /
           (([c7s1] : List Session).length : Rat))) ::
         List.replicate 10 (Cell.str "")] :=
  ⟨(claim_C2 [] []).2.2.1 rfl, (claim_C2 [] [c7s1]).2.2.2 (by simp)⟩

/-- A successful row rendering renders every session, in order. -/
theorem renderRowsE_forall2 (render : Session → Except String (List Cell))
    (l : List Session) (rs : List (List Cell))
    (h : renderRowsE render l = Except.ok rs) :
    List.Forall₂ (fun s r => render s = Except.ok r) l rs := by
  induction l generalizing rs with
  | nil =>
    simp only [renderRowsE, Except.ok.injEq] at h
    subst h
    exact List.Forall₂.nil
  | cons s t ih =>
    rw [renderRowsE] at h
    rcases hr : render s with e | r <;> rw [hr] at h
    · exact absurd h (by simp)
    · rcases ht : renderRowsE render t with e2 | rs2 <;> rw [ht] at h
      · exact absurd h (by simp)
      · simp only [Except.ok.injEq] at h
        subst h
        exact List.Forall₂.cons hr (ih rs2 ht)

/-- Row rendering fails whenever the renderer fails on some session. -/
theorem renderRowsE_error_of_mem (render : Session → Except String (List Cell))
    (l : List Session) (s : Session) (hs : s ∈ l) (e : String)
    (he : render s = Except.error e) :
    ∃ e2, renderRowsE render l = Except.error e2 := by
  induction l with
  | nil => cases hs
  | cons a t ih =>
    rw [renderRowsE]
    rcases ha : render a with e1 | r
    · exact ⟨e1, rfl⟩
    · rcases List.mem_cons.mp hs with h1 | h1
      · subst h1
        rw [ha] at he
        cases he
      · rcases ih h1 with ⟨e2, he2⟩
        rw [he2]
        exact ⟨e2, rfl⟩

/-- Claim C9: whenever any row construction fails during export document
building, the caller receives the structured error response (success
false with a human-readable message) and never a document; and any
returned document is fully built: every session was rendered
successfully, the data rows correspond one-to-one and in order to the
sessions, and the document is the complete worksheet over them. -/
theorem claim_C9 (render : Session → Except String (List Cell))
    (sessions : List Session) :
    ((∃ s ∈ sessions, ∃ e, render s = Except.error e) →
      exportHandler render sessions =
        ExportOutcome.errorJson false "Failed to export student performance data") ∧
    (∀ rows, exportHandler render sessions = ExportOutcome.document rows →
      ∃ dataRows, renderRowsE render sessions = Except.ok dataRows ∧
        List.Forall₂ (fun s r => render s = Except.ok r) sessions dataRows ∧
        dataRows.length = sessions.length ∧
        rows = worksheetOfRows sessions dataRows) := by
  constructor
  · rintro ⟨s, hs, e, he⟩
    rcases renderRowsE_error_of_mem render sessions s hs e he with ⟨e2, he2⟩
    rw [exportHandler, he2]
  · intro rows hrows
    rw [exportHandler] at hrows
    rcases hr : renderRowsE render sessions with e2 | dataRows <;> rw [hr] at hrows
    · exact absurd hrows (by simp)
    · simp only [ExportOutcome.document.injEq] at hrows
      have hf2 := renderRowsE_forall2 render sessions dataRows hr
      exact ⟨dataRows, rfl, hf2, (hf2.length_eq).symm, hrows.symm⟩

/-- Witness for claim C9 with a renderer that always fails. -/
theorem claim_C9_witness :
    exportHandler (fun _ => Except.error "render failure") [c7s1] =
      ExportOutcome.errorJson false "Failed to export student performance data" :=
  (claim_C9 (fun _ => Except.error "render failure") [c7s1]).1
    ⟨c7s1, List.mem_singleton.mpr rfl, "render failure", rfl⟩

/-- Claim C5: in every export row, the student name column resolves to
the external-auth display name when present and non-empty, else the
stored student name, else N/A; the contact column resolves to the
external-auth email, else the mobile number, else N/A; the student
identifier column resolves to the stored student id, else N/A; and the
first three cells of a data row are exactly these resolutions for the
owning user looked up by the session reference. -/
theorem claim_C5 (users : List User) (s : Session) (student : Option User) :
    ((exportDataRow users s).take 3 =
      [Cell.str (resolveStudentName (users.find? (fun u => u.uid == s.studentRef))),
       Cell.str (resolveStudentId (users.find? (fun u => u.uid == s.studentRef))),
       Cell.str (resolveContact (users.find? (fun u => u.uid == s.studentRef)))]) ∧
    (∀ u d, student = some u → u.azureAdDisplayName = some d → d ≠ "" →
      resolveStudentName student = d) ∧
    (∀ u n, student = some u →
      (u.azureAdDisplayName = none ∨ u.azureAdDisplayName = some "") →
      u.studentName = some n → n ≠ "" → resolveStudentName student = n) ∧
    (∀ u, student = some u →
      (u.azureAdDisplayName = none ∨ u.azureAdDisplayName = some "") →
      (u.studentName = none ∨ u.studentName = some "") →
      resolveStudentName student = "N/A") ∧
    (student = none → resolveStudentName student = "N/A") ∧
    (∀ u e, student = some u → u.azureAdEmail = some e → e ≠ "" →
      resolveContact student = e) ∧
    (∀ u m, student = some u →
      (u.azureAdEmail = none ∨ u.azureAdEmail = some "") →
      u.mobileNumber = some m → m ≠ "" → resolveContact student = m) ∧
    (∀ u, student = some u →
      (u.azureAdEmail = none ∨ u.azureAdEmail = some "") →
      (u.mobileNumber = none ∨ u.mobileNumber = some "") →
      resolveContact student = "N/A") ∧
    (student = none → resolveContact student = "N/A") ∧
    (∀ u i, student = some u → u.studentId = some i → i ≠ "" →
      resolveStudentId student = i) ∧
    (∀ u, student = some u → (u.studentId = none ∨ u.studentId = some "") →
      resolveStudentId student = "N/A") ∧
    (student = none → resolveStudentId student = "N/A") := by
  refine ⟨rfl, ?_, ?_, ?_, ?_, ?_, ?_, ?_, ?_, ?_, ?_, ?_⟩
  · rintro u d rfl hd hne
    simp [resolveStudentName, jsOr, jsOrD, hd, hne]
  · rintro u n rfl hdisp hn hne
    rcases hdisp with h | h <;>
      simp [resolveStudentName, jsOr, jsOrD, h, hn, hne]
  · rintro u rfl hdisp hname
    rcases hdisp with h | h <;> rcases hname with h2 | h2 <;>
      simp [resolveStudentName, jsOr, jsOrD, h, h2]
  · rintro rfl
    simp [resolveStudentName, jsOr, jsOrD]
  · rintro u e rfl he hne
    simp [resolveContact, jsOr, jsOrD, he, hne]
  · rintro u m rfl hemail hm hne
    rcases hemail with h | h <;>
      simp [resolveContact, jsOr, jsOrD, h, hm, hne]
  · rintro u rfl hemail hmob
    rcases hemail with h | h <;> rcases hmob with h2 | h2 <;>
      simp [resolveContact, jsOr, jsOrD, h, h2]
  · rintro rfl
    simp [resolveContact, jsOr, jsOrD]
  · rintro u i rfl hi hne
    simp [resolveStudentId, jsOrD, hi, hne]
  · rintro u rfl hid
    rcases hid with h | h <;> simp [resolveStudentId, jsOrD, h]
  · rintro rfl
    simp [resolveStudentId, jsOrD]

/-- Witness for claim C5 on a user with display name, mobile and id set. -/
theorem claim_C5_witness :
    resolveStudentName (some c5user) = "AD Display" ∧
    resolveContact (some c5user) = "9999999999" ∧
    resolveStudentId (some c5user) = "MICA123" ∧
    resolveStudentName none = "N/A" :=
  ⟨(claim_C5 [] c7s1 (some c5user)).2.1 c5user "AD Display" rfl rfl (by decide),
   (claim_C5 [] c7s1 (some c5user)).2.2.2.2.2.2.1 c5user "9999999999" rfl
     (Or.inl rfl) rfl (by decide),
   (claim_C5 [] c7s1 (some c5user)).2.2.2.2.2.2.2.2.2.1 c5user "MICA123" rfl rfl
     (by decide),
   (claim_C5 [] c7s1 none).2.2.2.2.1 rfl⟩


end FinQuiz
